import Mathlib

/-!
Shallow embedding of `src/index.js` (an Express backend: product catalog
filtering, purchase recording over a Postgres store, and — in the spec —
a trending resolver).  Handlers are modelled as pure functions; external
calls (file read, identity lookup, database queries) are injected as
`Except`-valued parameters so every failure branch of the JS `try/catch`
is explicit.
-/

namespace AmazonBackend

/-- A JSON scalar as sent by a client in a request body.  Request-body
fields may be absent (`undefined` in JS), modelled as `Option Lit`. -/
inductive Lit where
  | str (s : String)
  | num (n : Int)
  | boolVal (b : Bool)
  deriving DecidableEq, Repr

/-! ## Catalog data model (fields read by the products filter) -/

/-- `environmental_score_data` object: only its `grade` field is read. -/
structure EnvScoreData where
  grade : Option String
  deriving DecidableEq, Repr

/-- A catalog product, with exactly the fields the filter in
`GET /api/products` reads.  `none` models an absent field. -/
structure Product where
  code : Option String
  product_name : Option String
  image_url : Option String
  image_front_url : Option String
  nutriscore_grade : Option String
  environmental_score_data : Option EnvScoreData
  deriving DecidableEq, Repr

/-- JS truthiness for an optional string field: present and non-empty. -/
def truthyS : Option String → Bool
  | none => false
  | some s => decide (s ≠ "")

/-- `p.environmental_score_data?.grade`: `none` when the object or the
field is absent (JS `undefined`). -/
def envGrade (p : Product) : Option String :=
  p.environmental_score_data.bind EnvScoreData.grade

/-- The filter predicate of `GET /api/products`:
`p.code && p.product_name && (p.image_url || p.image_front_url) &&
 p.nutriscore_grade && p.environmental_score_data?.grade !== "unknown"`. -/
def displayableB (p : Product) : Bool :=
  truthyS p.code && truthyS p.product_name &&
    (truthyS p.image_url || truthyS p.image_front_url) &&
    truthyS p.nutriscore_grade &&
    !(decide (envGrade p = some "unknown"))

/-- `products.filter(...).slice(0, 50)` from `GET /api/products`. -/
def listDisplayableProducts (ps : List Product) : List Product :=
  (ps.filter displayableB).take 50

/-! ## Relational store -/

/-- A row of the `users` relation (`id` is the primary key). -/
structure UserRow where
  id : String
  email : String
  deriving DecidableEq, Repr

/-- A row of the `purchases` relation.  The four payload columns come
verbatim from the request body; `purchased_at` is server-assigned. -/
structure PurchaseRow where
  user_id : String
  product_code : Option Lit
  product_name : Option Lit
  price : Option Lit
  image_url : Option Lit
  purchased_at : Nat
  deriving DecidableEq, Repr

/-- The persisted state: the two relations. -/
structure Store where
  users : List UserRow
  purchases : List PurchaseRow
  deriving DecidableEq, Repr

/-- The JSON request body of `POST /api/purchase` (fields may be absent). -/
structure Body where
  product_code : Option Lit
  product_name : Option Lit
  price : Option Lit
  image_url : Option Lit
  deriving DecidableEq, Repr

/-- `INSERT INTO users (id,email) VALUES ($1,$2)
     ON CONFLICT (id) DO UPDATE SET email = EXCLUDED.email`
on the list of user rows: on a primary-key conflict only the `email`
column of the conflicting row is overwritten, otherwise a row is
appended. -/
def upsertList (uid email : String) (us : List UserRow) : List UserRow :=
  if us.any (fun r => decide (r.id = uid)) then
    us.map (fun r => if r.id = uid then { id := r.id, email := email } else r)
  else
    us ++ [{ id := uid, email := email }]

/-- The users upsert applied to the store. -/
def upsertUser (uid email : String) (s : Store) : Store :=
  { s with users := upsertList uid email s.users }

/-- `INSERT INTO purchases (user_id, product_code, product_name, price,
image_url) VALUES ($1,...,$5)` with the server time `now`. -/
def insertPurchase (uid : String) (b : Body) (now : Nat) (s : Store) : Store :=
  { s with purchases := s.purchases ++
      [{ user_id := uid, product_code := b.product_code,
         product_name := b.product_name, price := b.price,
         image_url := b.image_url, purchased_at := now }] }

/-- The store-level purchase operation: resolve the first email address
of the identity collaborator's user record; fail before any write when
it is falsy (`if (!email) throw` — absent or the empty string),
otherwise upsert the user row then insert the purchase. -/
def recordPurchase (uid : String) (emails : List String) (b : Body)
    (now : Nat) (s : Store) : Except String Store :=
  match emails.head? with
  | none => Except.error "User email not found"
  | some email =>
    if email = "" then Except.error "User email not found"
    else Except.ok (insertPurchase uid b now (upsertUser uid email s))

/-- Ordering relation used by `ORDER BY purchased_at DESC`. -/
def tsGE (a b : PurchaseRow) : Prop :=
  b.purchased_at ≤ a.purchased_at

instance : DecidableRel tsGE := fun a b =>
  inferInstanceAs (Decidable (b.purchased_at ≤ a.purchased_at))

instance : IsTotal PurchaseRow tsGE :=
  ⟨fun a b => Nat.le_total b.purchased_at a.purchased_at⟩

instance : IsTrans PurchaseRow tsGE :=
  ⟨fun _ _ _ hab hbc => Nat.le_trans hbc hab⟩

/-- `SELECT ... FROM purchases WHERE user_id = $1 ORDER BY purchased_at
DESC`, before column projection. -/
def purchasesFor (uid : String) (s : Store) : List PurchaseRow :=
  (s.purchases.filter (fun r => decide (r.user_id = uid))).insertionSort tsGE

/-- The four projected columns of `GET /api/purchases`. -/
structure PurchaseOut where
  product_code : Option Lit
  product_name : Option Lit
  price : Option Lit
  image_url : Option Lit
  deriving DecidableEq, Repr

/-- Column projection of the purchases query. -/
def projRow (r : PurchaseRow) : PurchaseOut :=
  { product_code := r.product_code, product_name := r.product_name,
    price := r.price, image_url := r.image_url }

/-- The rows returned by `GET /api/purchases` for a user. -/
def listPurchases (uid : String) (s : Store) : List PurchaseOut :=
  (purchasesFor uid s).map projRow

/-- `r.user_id = $1 AND r.product_code = $2` with `$2` the text URL
parameter: a `NULL`/non-matching `product_code` column does not match. -/
def keyMatch (uid code : String) (r : PurchaseRow) : Bool :=
  decide (r.user_id = uid ∧ r.product_code = some (Lit.str code))

/-- `DELETE FROM purchases WHERE user_id=$1 AND product_code=$2
RETURNING *`: every matching row is removed; the removed rows are
returned (in store order) together with the new store. -/
def deletePurchase (uid code : String) (s : Store) :
    List PurchaseRow × Store :=
  (s.purchases.filter (keyMatch uid code),
   { s with purchases := s.purchases.filter (fun r => !(keyMatch uid code r)) })

/-! ## HTTP layer -/

/-- The JSON payload of a response, one constructor per response shape
the handlers produce. -/
inductive Payload where
  | empty
  | successFlag
  | products (ps : List Product)
  | purchases (rs : List PurchaseOut)
  | deletedOne (r : PurchaseRow)
  | health
  deriving DecidableEq, Repr

/-- An HTTP response: status code, the optional `error` field of the
JSON body, and the rest of the body. -/
structure Response where
  status : Nat
  errorMsg : Option String
  payload : Payload
  deriving DecidableEq, Repr

/-- `GET /api/products`: the catalog read/parse either fails (caught,
500 with the error message) or yields the parsed product list. -/
def handleProducts (catalog : Except String (List Product)) : Response :=
  match catalog with
  | Except.error e => { status := 500, errorMsg := some e, payload := Payload.empty }
  | Except.ok ps =>
      { status := 200, errorMsg := none,
        payload := Payload.products (listDisplayableProducts ps) }

/-- `POST /api/purchase`: identity lookup (`gu`, the collaborator's
email-address list on success), the truthiness guard `if (!email) throw`
(rejecting an absent or empty first email before any write), then the
two database writes (`db1`, `db2` inject their failures).  Any thrown
error is caught and reported as a 500 with an `error` field; writes that
already ran persist. -/
def handlePurchase (gu : Except String (List String)) (b : Body) (now : Nat)
    (db1 db2 : Except String Unit) (uid : String) (s : Store) :
    Response × Store :=
  match gu with
  | Except.error e =>
      ({ status := 500, errorMsg := some e, payload := Payload.empty }, s)
  | Except.ok emails =>
    match emails.head? with
    | none =>
        ({ status := 500, errorMsg := some "User email not found",
           payload := Payload.empty }, s)
    | some email =>
      if email = "" then
        ({ status := 500, errorMsg := some "User email not found",
           payload := Payload.empty }, s)
      else
      match db1 with
      | Except.error e =>
          ({ status := 500, errorMsg := some e, payload := Payload.empty }, s)
      | Except.ok _ =>
        let s1 := upsertUser uid email s
        match db2 with
        | Except.error e =>
            ({ status := 500, errorMsg := some e, payload := Payload.empty }, s1)
        | Except.ok _ =>
            ({ status := 200, errorMsg := none, payload := Payload.successFlag },
             insertPurchase uid b now s1)

/-- `GET /api/purchases`: the query either fails (caught, 500) or
returns the user's rows newest-first. -/
def handlePurchases (db : Except String Unit) (uid : String) (s : Store) :
    Response :=
  match db with
  | Except.error e => { status := 500, errorMsg := some e, payload := Payload.empty }
  | Except.ok _ =>
      { status := 200, errorMsg := none,
        payload := Payload.purchases (listPurchases uid s) }

/-- `DELETE /api/purchase/:productCode`: run the delete; `rowCount === 0`
yields a 404 `{error}` body, otherwise `{success:true, deleted:rows[0]}`
with the first removed row. -/
def handleDelete (db : Except String Unit) (uid code : String) (s : Store) :
    Response × Store :=
  match db with
  | Except.error e =>
      ({ status := 500, errorMsg := some e, payload := Payload.empty }, s)
  | Except.ok _ =>
    let res := deletePurchase uid code s
    match res.1 with
    | [] =>
        ({ status := 404, errorMsg := some "Not found", payload := Payload.empty },
         res.2)
    | r :: _ =>
        ({ status := 200, errorMsg := none, payload := Payload.deletedOne r },
         res.2)

/-- `GET /api/health`: always 200. -/
def handleHealth : Response :=
  { status := 200, errorMsg := none, payload := Payload.health }

/-- The removed records contained in a delete response body. -/
def responseDeleted (r : Response) : List PurchaseRow :=
  match r.payload with
  | Payload.deletedOne x => [x]
  | _ => []

/-- A response is well formed when it is a success, or an error status
whose JSON body carries an `error` field. -/
def wellFormedResponse (r : Response) : Prop :=
  r.status = 200 ∨ ((r.status = 404 ∨ r.status = 500) ∧ r.errorMsg.isSome = true)

/-! ## Trending resolver (spec §4.4; not present in `src/`) -/

/-- Modelled from the spec: an item returned by the trending resolver
(`GET /api/recommend/trending` is absent from `src/`): an identifier
plus display payload. -/
structure RecItem where
  objectID : String
  name : String
  deriving DecidableEq, Repr

/-- Modelled from the spec: deduplication by identifier preserving the
first occurrence, used when trending result tiers are merged.  `seen`
holds the identifiers already emitted. -/
def dedupByIdAux (seen : List String) : List RecItem → List RecItem
  | [] => []
  | x :: xs =>
    if x.objectID ∈ seen then dedupByIdAux seen xs
    else x :: dedupByIdAux (x.objectID :: seen) xs

/-- Deduplication by identifier, first occurrence kept. -/
def dedupById (l : List RecItem) : List RecItem := dedupByIdAux [] l

/-- Modelled from the spec: `getTrending(max)` — the trending resolver of
`GET /api/recommend/trending` is absent from `src/`.  Tier (a) is the
recommendation-model query result, tier (b) the filtered/sorted search
result used to fill remaining slots, tier (c) the static fallback list
used to pad up to `max`; merges of (b)/(c) deduplicate by identifier and
the output is capped at `max`. -/
def getTrending (maxN : Nat) (recs search staticFallback : List RecItem) :
    List RecItem :=
  if maxN ≤ recs.length then recs.take maxN
  else
    let merged := dedupById (recs ++ search)
    let padded :=
      if merged.length < maxN then dedupById (merged ++ staticFallback)
      else merged
    padded.take maxN

/-! ## Sample data used to instantiate the theorems -/

/-- A sample request body. -/
def sBody : Body :=
  { product_code := some (Lit.str "A"), product_name := some (Lit.str "X"),
    price := some (Lit.num 5), image_url := none }

/-- A sample request body with the `price` field absent. -/
def sBodyNoPrice : Body :=
  { product_code := some (Lit.str "A"), product_name := some (Lit.str "X"),
    price := none, image_url := none }

/-- The empty store. -/
def sStore0 : Store := { users := [], purchases := [] }

/-- The purchase row written for `sBody` by user `u1` at time `n`. -/
def sRow (n : Nat) : PurchaseRow :=
  { user_id := "u1", product_code := some (Lit.str "A"),
    product_name := some (Lit.str "X"), price := some (Lit.num 5),
    image_url := none, purchased_at := n }

/-- The store after one sample purchase. -/
def sStore1 : Store :=
  { users := [{ id := "u1", email := "a@x" }], purchases := [sRow 0] }

/-- The store after a second sample purchase with a new email. -/
def sStore2 : Store :=
  { users := [{ id := "u1", email := "b@x" }], purchases := [sRow 0, sRow 1] }

/-- A store holding two purchase rows that both match `("u1", "A")`. -/
def cxStore : Store := { users := [], purchases := [sRow 0, sRow 1] }

/-- A displayable sample product. -/
def sProd : Product :=
  { code := some "0001", product_name := some "Oats", image_url := some "img",
    image_front_url := none, nutriscore_grade := some "a",
    environmental_score_data := some { grade := some "b" } }

/-- A sample product with no `environmental_score_data` object at all. -/
def pNoEnv : Product :=
  { code := some "0002", product_name := some "Rice", image_url := some "img2",
    image_front_url := none, nutriscore_grade := some "b",
    environmental_score_data := none }

/-! ## Helper lemmas about the users upsert -/

/-- The upsert's conflict branch does not change the `id` column. -/
theorem map_id_upsert_map (uid e : String) :
    ∀ us : List UserRow,
      (us.map (fun r => if r.id = uid then { id := r.id, email := e } else r)).map
          UserRow.id
        = us.map UserRow.id
  | [] => rfl
  | r :: rest => by
    by_cases hr : r.id = uid <;>
      simp [hr, map_id_upsert_map uid e rest]

/-- In the conflict branch, with primary-key-unique rows, the rows with
the conflicting id collapse to the single overwritten row. -/
theorem filter_eq_upsert_map (uid e : String) :
    ∀ us : List UserRow, (us.map UserRow.id).Nodup →
      us.any (fun r => decide (r.id = uid)) = true →
      (us.map (fun r => if r.id = uid then { id := r.id, email := e } else r)).filter
          (fun r => decide (r.id = uid)) = [{ id := uid, email := e }]
  | [], _, hany => by simp at hany
  | r :: rest, hnd, hany => by
    by_cases hr : r.id = uid
    · have hnotin : uid ∉ rest.map UserRow.id := by
        have h0 : r.id ∉ rest.map UserRow.id := (List.nodup_cons.mp (by simpa using hnd)).1
        rw [← hr]; exact h0
      have hrest : ∀ y ∈ rest, ¬(y.id = uid) := by
        intro y hy hy2
        exact hnotin (hy2 ▸ List.mem_map_of_mem UserRow.id hy)
      have hnil :
          (rest.map (fun x => if x.id = uid then { id := x.id, email := e } else x)).filter
              (fun x => decide (x.id = uid)) = [] := by
        rw [List.filter_eq_nil_iff]
        intro x hx
        rcases List.mem_map.mp hx with ⟨y, hy, rfl⟩
        simp [hrest y hy]
      simp [hr, hnil]
    · have hany' : rest.any (fun x => decide (x.id = uid)) = true := by
        simpa [hr] using hany
      have hnd' : (rest.map UserRow.id).Nodup :=
        (List.nodup_cons.mp (by simpa using hnd)).2
      simpa [hr] using filter_eq_upsert_map uid e rest hnd' hany'

/-- The conflict branch leaves every row with a different id unchanged. -/
theorem filter_ne_upsert_map (uid e : String) :
    ∀ us : List UserRow,
      (us.map (fun r => if r.id = uid then { id := r.id, email := e } else r)).filter
          (fun r => !decide (r.id = uid))
        = us.filter (fun r => !decide (r.id = uid))
  | [] => rfl
  | r :: rest => by
    by_cases hr : r.id = uid <;>
      simp [hr, filter_ne_upsert_map uid e rest]

/-- After an upsert of `(uid, e)` into primary-key-unique rows, exactly
one row has id `uid`, and its email is `e`. -/
theorem filter_eq_upsertList (uid e : String) (us : List UserRow)
    (hnd : (us.map UserRow.id).Nodup) :
    (upsertList uid e us).filter (fun r => decide (r.id = uid))
      = [{ id := uid, email := e }] := by
  unfold upsertList
  by_cases h : us.any (fun r => decide (r.id = uid)) = true
  · rw [if_pos h]; exact filter_eq_upsert_map uid e us hnd h
  · rw [if_neg h, List.filter_append]
    have hnil : us.filter (fun r => decide (r.id = uid)) = [] := by
      rw [List.filter_eq_nil_iff]
      intro a ha hmem
      exact h (List.any_eq_true.mpr ⟨a, ha, hmem⟩)
    simp [hnil]

/-- An upsert of `(uid, e)` leaves every row with a different id
unchanged (only the conflicting row's email column is overwritten). -/
theorem filter_ne_upsertList (uid e : String) (us : List UserRow) :
    (upsertList uid e us).filter (fun r => !decide (r.id = uid))
      = us.filter (fun r => !decide (r.id = uid)) := by
  unfold upsertList
  by_cases h : us.any (fun r => decide (r.id = uid)) = true
  · rw [if_pos h]; exact filter_ne_upsert_map uid e us
  · rw [if_neg h, List.filter_append]; simp

/-- The upsert preserves uniqueness of the `id` primary key. -/
theorem nodup_upsertList (uid e : String) (us : List UserRow)
    (hnd : (us.map UserRow.id).Nodup) :
    ((upsertList uid e us).map UserRow.id).Nodup := by
  unfold upsertList
  by_cases h : us.any (fun r => decide (r.id = uid)) = true
  · rw [if_pos h, map_id_upsert_map]; exact hnd
  · rw [if_neg h, List.map_append]
    have hnotin : uid ∉ us.map UserRow.id := by
      intro hmem
      rcases List.mem_map.mp hmem with ⟨y, hy, hid⟩
      exact h (List.any_eq_true.mpr ⟨y, hy, by simp [hid]⟩)
    simp [List.nodup_append, hnd, hnotin]

/-- C1: recording a purchase twice for the same user `u`, with emails
`e1` then `e2`, leaves exactly one `users` row for `u`, that row's email
is `e2` (the latest), and the upsert touches no row with a different id
(on conflict only the email column is overwritten). -/
theorem recordPurchase_twice_upsert (u e1 e2 : String) (b1 b2 : Body)
    (n1 n2 : Nat) (s s1 s2 : Store)
    (hnd : (s.users.map UserRow.id).Nodup)
    (h1 : recordPurchase u [e1] b1 n1 s = Except.ok s1)
    (h2 : recordPurchase u [e2] b2 n2 s1 = Except.ok s2) :
    s2.users.filter (fun r => decide (r.id = u)) = [{ id := u, email := e2 }]
  ∧ s2.users.filter (fun r => !decide (r.id = u))
      = s.users.filter (fun r => !decide (r.id = u)) := by
  have hs1 : insertPurchase u b1 n1 (upsertUser u e1 s) = s1 := by
    by_cases hne : e1 = ""
    · simp [recordPurchase, hne] at h1
    · simpa [recordPurchase, hne] using h1
  have hs2 : insertPurchase u b2 n2 (upsertUser u e2 s1) = s2 := by
    by_cases hne : e2 = ""
    · simp [recordPurchase, hne] at h2
    · simpa [recordPurchase, hne] using h2
  have hu2 : s2.users = upsertList u e2 (upsertList u e1 s.users) := by
    rw [← hs2, ← hs1]; rfl
  rw [hu2]
  refine ⟨filter_eq_upsertList u e2 _ (nodup_upsertList u e1 _ hnd), ?_⟩
  rw [filter_ne_upsertList, filter_ne_upsertList]

/-- Witness for C1: a concrete double purchase on the empty store. -/
theorem recordPurchase_twice_upsert_witness :
    sStore2.users.filter (fun r => decide (r.id = "u1")) = [{ id := "u1", email := "b@x" }]
  ∧ sStore2.users.filter (fun r => !decide (r.id = "u1"))
      = sStore0.users.filter (fun r => !decide (r.id = "u1")) :=
  recordPurchase_twice_upsert "u1" "a@x" "b@x" sBody sBody 0 1 sStore0 sStore1 sStore2
    (by decide) (by rfl) (by rfl)

/-- C2: when the identity collaborator resolves no email address, the
purchase handler reports a 500 error response with an `error` field and
performs no write: the store (both relations) is returned unchanged. -/
theorem purchase_no_email_no_write (emails : List String)
    (h : emails.head? = none) (b : Body) (n : Nat)
    (d1 d2 : Except String Unit) (u : String) (s : Store) :
    (handlePurchase (Except.ok emails) b n d1 d2 u s).2 = s
  ∧ (handlePurchase (Except.ok emails) b n d1 d2 u s).1.status = 500
  ∧ (handlePurchase (Except.ok emails) b n d1 d2 u s).1.errorMsg.isSome = true := by
  simp [handlePurchase, h]

/-- Witness for C2: an identity record with an empty email list. -/
theorem purchase_no_email_no_write_witness :
    (handlePurchase (Except.ok []) sBody 0 (Except.ok ()) (Except.ok ()) "u1" sStore0).2
        = sStore0
  ∧ (handlePurchase (Except.ok []) sBody 0 (Except.ok ()) (Except.ok ()) "u1"
        sStore0).1.status = 500
  ∧ (handlePurchase (Except.ok []) sBody 0 (Except.ok ()) (Except.ok ()) "u1"
        sStore0).1.errorMsg.isSome = true :=
  purchase_no_email_no_write [] rfl sBody 0 (Except.ok ()) (Except.ok ()) "u1" sStore0

/-- C3: the purchases listing returns exactly the purchases owned by
`uid` (a permutation of the store filter), sorted by purchase timestamp
descending; the handler reports them as a 200 response, and the result
is the empty sequence — not an error — exactly when the user has no
purchases. -/
theorem listPurchases_ordered (uid : String) (s : Store) :
    List.Perm (purchasesFor uid s)
      (s.purchases.filter (fun r => decide (r.user_id = uid)))
  ∧ (purchasesFor uid s).Sorted tsGE
  ∧ handlePurchases (Except.ok ()) uid s =
      { status := 200, errorMsg := none,
        payload := Payload.purchases (listPurchases uid s) }
  ∧ (listPurchases uid s = [] ↔
      s.purchases.filter (fun r => decide (r.user_id = uid)) = []) := by
  refine ⟨List.perm_insertionSort tsGE _, List.sorted_insertionSort tsGE _, rfl, ?_⟩
  rw [listPurchases, List.map_eq_nil_iff]
  constructor
  · intro h
    have hp : List.Perm (s.purchases.filter (fun r => decide (r.user_id = uid)))
        (purchasesFor uid s) :=
      (List.perm_insertionSort tsGE _).symm
    rw [h] at hp
    exact hp.eq_nil
  · intro h
    rw [purchasesFor, h]
    rfl

/-- C4 (amended): for the delete handler, the surviving rows are exactly
the non-matching ones and the users relation is untouched; a 404 with an
`error` body is returned iff no row matched, in which case the store is
unchanged; otherwise the response carries the first removed record. -/
theorem deletePurchase_spec (uid code : String) (s : Store) :
    ((handleDelete (Except.ok ()) uid code s).2).purchases
        = s.purchases.filter (fun r => !(keyMatch uid code r))
  ∧ ((handleDelete (Except.ok ()) uid code s).2).users = s.users
  ∧ ((handleDelete (Except.ok ()) uid code s).1.status = 404
        ↔ s.purchases.filter (keyMatch uid code) = [])
  ∧ (s.purchases.filter (keyMatch uid code) = [] →
        (handleDelete (Except.ok ()) uid code s).2 = s
        ∧ (handleDelete (Except.ok ()) uid code s).1.errorMsg.isSome = true)
  ∧ (∀ r rest, s.purchases.filter (keyMatch uid code) = r :: rest →
        (handleDelete (Except.ok ()) uid code s).1
          = { status := 200, errorMsg := none, payload := Payload.deletedOne r }) := by
  cases hf : s.purchases.filter (keyMatch uid code) with
  | nil =>
    have hall : ∀ r ∈ s.purchases, ¬(keyMatch uid code r = true) :=
      List.filter_eq_nil_iff.mp hf
    have hkeep : s.purchases.filter (fun r => !(keyMatch uid code r)) = s.purchases := by
      rw [List.filter_eq_self]
      intro a ha
      simp [hall a ha]
    simp [handleDelete, deletePurchase, hf, hkeep]
  | cons r rest =>
    simp [handleDelete, deletePurchase, hf]

/-- Witness for C4 on a store with no matching row: 404 with an error
field and an unchanged store. -/
theorem deletePurchase_spec_witness :
    (handleDelete (Except.ok ()) "u1" "A" sStore0).2 = sStore0
  ∧ (handleDelete (Except.ok ()) "u1" "A" sStore0).1.errorMsg.isSome = true :=
  (deletePurchase_spec "u1" "A" sStore0).2.2.2.1 rfl

/-- C4 counterexample: on a store holding two rows matching
`("u1", "A")` the handler removes both, but the response body carries
only the first removed record, not the removed record(s). -/
theorem deletePurchase_response_counterexample :
    ¬ (responseDeleted (handleDelete (Except.ok ()) "u1" "A" cxStore).1
        = (deletePurchase "u1" "A" cxStore).1) := by
  decide

/-- Truthiness of an optional string field: present and non-empty. -/
theorem truthyS_iff (o : Option String) :
    truthyS o = true ↔ ∃ s, o = some s ∧ s ≠ "" := by
  cases o <;> simp [truthyS]

/-- C5: every product returned by `listDisplayableProducts` has a
non-empty code, a non-empty name, at least one image field present, a
non-empty nutriscore grade, and no environmental grade equal to
`"unknown"`. -/
theorem displayable_sound (ps : List Product) (p : Product)
    (h : p ∈ listDisplayableProducts ps) :
    (∃ c, p.code = some c ∧ c ≠ "")
  ∧ (∃ nm, p.product_name = some nm ∧ nm ≠ "")
  ∧ (p.image_url.isSome = true ∨ p.image_front_url.isSome = true)
  ∧ (∃ g, p.nutriscore_grade = some g ∧ g ≠ "")
  ∧ envGrade p ≠ some "unknown" := by
  have hm : p ∈ ps.filter displayableB := List.mem_of_mem_take h
  have hd : displayableB p = true := (List.mem_filter.mp hm).2
  rw [displayableB] at hd
  simp only [Bool.and_eq_true, Bool.or_eq_true, Bool.not_eq_true',
    decide_eq_false_iff_not] at hd
  obtain ⟨⟨⟨⟨hc, hn⟩, himg⟩, hg⟩, henv⟩ := hd
  refine ⟨(truthyS_iff _).mp hc, (truthyS_iff _).mp hn, ?_, (truthyS_iff _).mp hg, henv⟩
  rcases himg with h1 | h1
  · left
    rcases (truthyS_iff _).mp h1 with ⟨str, hs, _⟩
    simp [hs]
  · right
    rcases (truthyS_iff _).mp h1 with ⟨str, hs, _⟩
    simp [hs]

/-- Witness for C5 on a one-product catalog. -/
theorem displayable_sound_witness :
    (∃ c, sProd.code = some c ∧ c ≠ "")
  ∧ (∃ nm, sProd.product_name = some nm ∧ nm ≠ "")
  ∧ (sProd.image_url.isSome = true ∨ sProd.image_front_url.isSome = true)
  ∧ (∃ g, sProd.nutriscore_grade = some g ∧ g ≠ "")
  ∧ envGrade sProd ≠ some "unknown" :=
  displayable_sound [sProd] sProd (by decide)

/-- C6: the products listing is the 50-prefix of the displayable
filtering of the catalog: its length is `min 50` the number of
displayable products, it is a prefix of the filtered sequence, and it
preserves the catalog's relative order (a sublist of the catalog). -/
theorem listDisplayable_truncation (ps : List Product) :
    (listDisplayableProducts ps).length = min 50 (ps.filter displayableB).length
  ∧ listDisplayableProducts ps <+: ps.filter displayableB
  ∧ List.Sublist (listDisplayableProducts ps) ps := by
  have hpre : listDisplayableProducts ps <+: ps.filter displayableB :=
    ⟨(ps.filter displayableB).drop 50, List.take_append_drop 50 _⟩
  exact ⟨List.length_take 50 _, hpre, hpre.sublist.trans (List.filter_sublist ps)⟩

/-- C7: every handler yields either a success or an error status whose
JSON body carries an `error` field, whatever its external calls did; no
failure escapes the request boundary. -/
theorem errors_caught_at_boundary :
    (∀ cat, wellFormedResponse (handleProducts cat))
  ∧ (∀ gu b n d1 d2 u s, wellFormedResponse (handlePurchase gu b n d1 d2 u s).1)
  ∧ (∀ d u s, wellFormedResponse (handlePurchases d u s))
  ∧ (∀ d u c s, wellFormedResponse (handleDelete d u c s).1)
  ∧ wellFormedResponse handleHealth := by
  refine ⟨?_, ?_, ?_, ?_, Or.inl rfl⟩
  · intro cat
    cases cat <;> simp [handleProducts, wellFormedResponse]
  · intro gu b n d1 d2 u s
    cases gu with
    | error e => simp [handlePurchase, wellFormedResponse]
    | ok emails =>
      cases emails with
      | nil => simp [handlePurchase, wellFormedResponse]
      | cons e0 rest =>
        by_cases h0 : e0 = ""
        · simp [handlePurchase, h0, wellFormedResponse]
        · cases d1 with
          | error e => simp [handlePurchase, h0, wellFormedResponse]
          | ok u1 =>
            cases d2 <;> simp [handlePurchase, h0, wellFormedResponse]
  · intro d u s
    cases d <;> simp [handlePurchases, wellFormedResponse]
  · intro d u c s
    cases d with
    | error e => simp [handleDelete, wellFormedResponse]
    | ok u1 =>
      cases hf : s.purchases.filter (keyMatch u c) <;>
        simp [handleDelete, deletePurchase, hf, wellFormedResponse]

/-- The dedup emits a subsequence of its input (first occurrences). -/
theorem dedupByIdAux_sublist :
    ∀ (l : List RecItem) (seen : List String),
      List.Sublist (dedupByIdAux seen l) l
  | [], _ => by simp [dedupByIdAux]
  | x :: xs, seen => by
    simp only [dedupByIdAux]
    by_cases h : x.objectID ∈ seen
    · rw [if_pos h]
      exact List.Sublist.cons x (dedupByIdAux_sublist xs seen)
    · rw [if_neg h]
      exact List.Sublist.cons₂ x (dedupByIdAux_sublist xs _)

/-- Items emitted by the dedup have identifiers outside `seen`. -/
theorem dedupByIdAux_notMem_seen :
    ∀ (l : List RecItem) (seen : List String) (y : RecItem),
      y ∈ dedupByIdAux seen l → y.objectID ∉ seen
  | [], _, y => by simp [dedupByIdAux]
  | x :: xs, seen, y => by
    simp only [dedupByIdAux]
    by_cases h : x.objectID ∈ seen
    · rw [if_pos h]
      exact dedupByIdAux_notMem_seen xs seen y
    · rw [if_neg h]
      intro hy
      rcases List.mem_cons.mp hy with rfl | hy2
      · exact h
      · have hrec := dedupByIdAux_notMem_seen xs _ y hy2
        intro hsee
        exact hrec (List.mem_cons_of_mem _ hsee)

/-- The dedup's emitted identifiers are pairwise distinct. -/
theorem dedupByIdAux_nodup :
    ∀ (l : List RecItem) (seen : List String),
      ((dedupByIdAux seen l).map RecItem.objectID).Nodup
  | [], _ => by simp [dedupByIdAux]
  | x :: xs, seen => by
    simp only [dedupByIdAux]
    by_cases h : x.objectID ∈ seen
    · rw [if_pos h]
      exact dedupByIdAux_nodup xs seen
    · rw [if_neg h]
      simp only [List.map_cons, List.nodup_cons]
      refine ⟨?_, dedupByIdAux_nodup xs _⟩
      intro hmem
      rcases List.mem_map.mp hmem with ⟨y, hy, hid⟩
      have hnotin := dedupByIdAux_notMem_seen xs _ y hy
      exact hnotin (by rw [hid]; exact List.mem_cons_self _ _)

/-- C8: with both the recommendation and search collaborators returning
no items, `getTrending 8` returns exactly the static fallback list
deduplicated by identifier — first occurrences kept, in order (a
subsequence of the fallback) — capped at length 8, with
pairwise-distinct identifiers. -/
theorem getTrending_static_fallback (fb : List RecItem) :
    getTrending 8 [] [] fb = (dedupById fb).take 8
  ∧ (getTrending 8 [] [] fb).length ≤ 8
  ∧ ((getTrending 8 [] [] fb).map RecItem.objectID).Nodup
  ∧ List.Sublist (dedupById fb) fb := by
  have h0 : getTrending 8 [] [] fb = (dedupById fb).take 8 := rfl
  refine ⟨h0, ?_, ?_, dedupByIdAux_sublist fb []⟩
  · rw [h0]
    exact List.length_take_le 8 _
  · rw [h0]
    exact List.Nodup.sublist (List.Sublist.map _ (List.take_sublist 8 _))
      (dedupByIdAux_nodup fb [])

/-- C9: a product with no `environmental_score_data` object at all — so
no environmental grade — passes the displayability filter and is
returned by the products listing, given a code, a name, an image and a
nutriscore grade: only a grade equal to `"unknown"` is rejected. -/
theorem missing_env_data_displayable :
    pNoEnv.environmental_score_data = none
  ∧ pNoEnv ∈ listDisplayableProducts [pNoEnv] := by
  decide

/-- C10: on the success path the inserted purchase row stores the
client-supplied body fields verbatim — whatever they are, absent ones
included — with the server timestamp; no validation against the catalog
happens. -/
theorem purchase_inserts_body_verbatim (emails : List String) (e : String)
    (h : emails.head? = some e) (he : e ≠ "") (b : Body) (n : Nat)
    (u : String) (s : Store) :
    (handlePurchase (Except.ok emails) b n (Except.ok ()) (Except.ok ()) u s).2.purchases
      = s.purchases ++
        [{ user_id := u, product_code := b.product_code,
           product_name := b.product_name, price := b.price,
           image_url := b.image_url, purchased_at := n }]
  ∧ (handlePurchase (Except.ok emails) b n (Except.ok ()) (Except.ok ()) u s).1
      = { status := 200, errorMsg := none, payload := Payload.successFlag } := by
  simp [handlePurchase, h, he, insertPurchase, upsertUser]

/-- Witness for C10: a body with the `price` field absent is recorded
verbatim, absent price and all. -/
theorem purchase_inserts_body_verbatim_witness :
    (handlePurchase (Except.ok ["a@x"]) sBodyNoPrice 7 (Except.ok ()) (Except.ok ())
        "u1" sStore0).2.purchases
      = sStore0.purchases ++
        [{ user_id := "u1", product_code := sBodyNoPrice.product_code,
           product_name := sBodyNoPrice.product_name, price := sBodyNoPrice.price,
           image_url := sBodyNoPrice.image_url, purchased_at := 7 }]
  ∧ (handlePurchase (Except.ok ["a@x"]) sBodyNoPrice 7 (Except.ok ()) (Except.ok ())
        "u1" sStore0).1
      = { status := 200, errorMsg := none, payload := Payload.successFlag } :=
  purchase_inserts_body_verbatim ["a@x"] "a@x" rfl (by decide) sBodyNoPrice 7 "u1" sStore0

end AmazonBackend
